import Mathlib

/-!
Verification of the product data-access and search subsystem of the
filis-npd-platform repository: the generic query builder and repository
(`backend/src/database/repositories/BaseRepository.ts`), the product search
and trigram duplicate detector
(`backend/src/database/repositories/ProductRepository.ts`), the transaction
wrapper (`backend/src/database/connection.ts`), the submission route's
24-hour exact-duplicate gate, and the tier/reward computations
(`docs/database_infrastructure.sql`, `UserRepository.ts`, development plan).

Machine numbers are modelled as `Int`/`ℚ`; JS objects as explicit structures;
fallible operations as `Except`; stored state as explicit lists of rows.
-/

namespace Filis

/-- A primitive JS value that can be bound as a query parameter
(a value of the `FilterOptions` map in `BaseRepository.ts`). -/
inductive Scalar where
  | s (v : String)
  | i (v : Int)
  | b (v : Bool)
  deriving Repr, DecidableEq

/-- A value of the `FilterOptions` map handed to `buildWhereClause`:
an array (IN clause), a scalar, or `null`/`undefined` (skipped). -/
inductive FilterVal where
  | arr (xs : List Scalar)
  | scalar (v : Scalar)
  | null
  deriving Repr, DecidableEq

/-- One iteration of `buildWhereClause`'s loop body
(`BaseRepository.ts` lines 37-53): the condition text and the parameters
contributed by a single (key, value) entry, with `start` the current
`paramIndex`. `none` when the value is `undefined`/`null` and skipped. -/
def condFor (key : String) (start : Nat) : FilterVal → Option (String × List Scalar)
  | .null => none
  | .arr xs =>
      let placeholders :=
        String.intercalate ", " ((List.range xs.length).map (fun j => "$" ++ toString (start + j)))
      some (key ++ " IN (" ++ placeholders ++ ")", xs)
  | .scalar (.s v) =>
      if v.toList.contains '%' then some (key ++ " ILIKE $" ++ toString start, [Scalar.s v])
      else some (key ++ " = $" ++ toString start, [Scalar.s v])
  | .scalar v => some (key ++ " = $" ++ toString start, [v])

/-- The loop of `buildWhereClause` over `Object.entries(filters)`, threading
`paramIndex` (starting at `start`), accumulating condition strings and the
ordered parameter list. -/
def buildWhereClauseAux : List (String × FilterVal) → Nat → List String × List Scalar
  | [], _ => ([], [])
  | (k, v) :: rest, start =>
    match condFor k start v with
    | none => buildWhereClauseAux rest start
    | some (c, ps) =>
      let r := buildWhereClauseAux rest (start + ps.length)
      (c :: r.1, ps ++ r.2)

/-- `BaseRepository.buildWhereClause(filters)` (lines 32-58): the WHERE
clause text and the ordered bound-parameter list. `paramIndex` starts at 1;
no conditions yields the empty clause. -/
def buildWhereClause (filters : List (String × FilterVal)) : String × List Scalar :=
  let r := buildWhereClauseAux filters 1
  (if r.1.length > 0 then "WHERE " ++ String.intercalate " AND " r.1 else "", r.2)

/-- `PaginationOptions` of `BaseRepository.ts`: every field optional. -/
structure PaginationOptions where
  page : Option Int := none
  limit : Option Int := none
  offset : Option Int := none
  deriving Repr, DecidableEq

/-- JS truthiness of an optional number field: `undefined` and `0` are falsy
(the source tests `if (pagination.limit)` etc.). -/
def truthy : Option Int → Bool
  | none => false
  | some v => v != 0

/-- `BaseRepository.buildLimitClause(pagination)` (lines 71-90): the
LIMIT/OFFSET clause text and its parameters. The offset parameter is the
explicit `offset` when truthy, else `(page - 1) * limit` when `page` and
`limit` are truthy. -/
def buildLimitClause (p : PaginationOptions) : String × List Int :=
  let r₁ : String × List Int :=
    if truthy p.limit then (" LIMIT $1", [p.limit.getD 0]) else ("", [])
  if truthy p.offset then
    (r₁.1 ++ " OFFSET $" ++ toString (r₁.2.length + 1), r₁.2 ++ [p.offset.getD 0])
  else if truthy p.page && truthy p.limit then
    (r₁.1 ++ " OFFSET $" ++ toString (r₁.2.length + 1),
      r₁.2 ++ [(p.page.getD 0 - 1) * p.limit.getD 0])
  else r₁

/-- The effective OFFSET value bound by `buildLimitClause` (0 when the
clause binds none, matching SQL's default). -/
def effOffset (p : PaginationOptions) : Int :=
  if truthy p.offset then p.offset.getD 0
  else if truthy p.page && truthy p.limit then (p.page.getD 0 - 1) * p.limit.getD 0
  else 0

/-- The effective LIMIT value bound by `buildLimitClause`, when one is. -/
def effLimit (p : PaginationOptions) : Option Int :=
  if truthy p.limit then some (p.limit.getD 0) else none

/-- SQL semantics of the generated `LIMIT`/`OFFSET` clause over the full
ordered result set: drop the offset, then take at most the limit. -/
def runPage {α : Type} (rows : List α) (p : PaginationOptions) : List α :=
  match effLimit p with
  | some l => ((rows.drop (effOffset p).toNat).take l.toNat)
  | none => rows.drop (effOffset p).toNat

/-- A value bound as a query parameter by `ProductRepository.search`. -/
inductive SearchParam where
  | s (v : String)
  | q (v : ℚ)
  | b (v : Bool)
  | i (v : Int)
  deriving Repr, DecidableEq

/-- The `SearchFilters` interface of `ProductRepository.ts` (lines 68-79);
absent list-valued fields are the empty list, absent optional fields `none`. -/
structure SearchFilters where
  query : Option String := none
  category : List String := []
  brand : List String := []
  country : List String := []
  countryOfOrigin : List String := []
  priceRange : Option (ℚ × ℚ) := none
  isRegional : Option Bool := none
  verificationStatus : List String := []
  dateRange : Option (Int × Int) := none
  isNpd : Option Bool := none

/-- The comma-separated placeholder list built by `search`'s array filters:
`value.map(() => ` and a template holding `paramIndex` WITHOUT a `$` sign
(the source writes `${paramIndex++}`, which interpolates the index as a bare
number into the SQL text). -/
def searchPlaceholders (start n : Nat) : String :=
  String.intercalate ", " ((List.range n).map (fun j => toString (start + j)))

/-- One filter branch of `search`: append the condition rendered at the
current `paramIndex`, push the parameters, advance the index by their count. -/
def searchStep (st : List String × List SearchParam × Nat)
    (cond : Nat → String) (ps : List SearchParam) :
    List String × List SearchParam × Nat :=
  (st.1 ++ [cond st.2.2], st.2.1 ++ ps, st.2.2 + ps.length)

/-- The condition/parameter accumulation of `ProductRepository.search`
(lines 93-163), branch by branch in source order, starting from
`paramIndex = 1`. Each condition text is the source's template literal,
in which `${paramIndex}` interpolates the bare index. -/
def searchConditions (f : SearchFilters) : List String × List SearchParam × Nat :=
  let st : List String × List SearchParam × Nat := ([], [], 1)
  let st := match f.query with
    | some q => searchStep st (fun i =>
        "\n        to_tsvector('english', \n          COALESCE(name, '') || ' ' || \n          COALESCE(brand, '') || ' ' || \n          COALESCE(description, '') || ' ' || \n          COALESCE(ingredients_list, '')\n        ) @@ plainto_tsquery('english', " ++ toString i ++ ")\n      ")
        [SearchParam.s q]
    | none => st
  let st := if f.category.length > 0 then
      searchStep st (fun i => "category IN (" ++ searchPlaceholders i f.category.length ++ ")")
        (f.category.map SearchParam.s)
    else st
  let st := if f.brand.length > 0 then
      searchStep st (fun i => "brand IN (" ++ searchPlaceholders i f.brand.length ++ ")")
        (f.brand.map SearchParam.s)
    else st
  let st := if f.country.length > 0 then
      searchStep st (fun i => "country IN (" ++ searchPlaceholders i f.country.length ++ ")")
        (f.country.map SearchParam.s)
    else st
  let st := match f.priceRange with
    | some pr => searchStep st
        (fun i => "mrp BETWEEN " ++ toString i ++ " AND " ++ toString (i + 1))
        [SearchParam.q pr.1, SearchParam.q pr.2]
    | none => st
  let st := match f.isRegional with
    | some v => searchStep st (fun i => "is_regional_exclusive = " ++ toString i) [SearchParam.b v]
    | none => st
  let st := match f.isNpd with
    | some v => searchStep st (fun i => "is_npd = " ++ toString i) [SearchParam.b v]
    | none => st
  let st := if f.verificationStatus.length > 0 then
      searchStep st
        (fun i => "verification_status IN (" ++ searchPlaceholders i f.verificationStatus.length ++ ")")
        (f.verificationStatus.map SearchParam.s)
    else st
  let st := match f.dateRange with
    | some dr => searchStep st
        (fun i => "created_at BETWEEN " ++ toString i ++ " AND " ++ toString (i + 1))
        [SearchParam.i dr.1, SearchParam.i dr.2]
    | none => st
  st

/-- The `whereClause` of `search` (line 165). -/
def searchWhereClause (f : SearchFilters) : String :=
  let st := searchConditions f
  if st.1.length > 0 then "WHERE " ++ String.intercalate " AND " st.1 else ""

/-- The `orderClause` of `search` (lines 172-188): recency by default, the
`ts_rank` ordering (whose template correctly writes `$1`) with a free-text
query. -/
def searchOrderClause (f : SearchFilters) : String :=
  match f.query with
  | some _ =>
      "\n        ORDER BY \n          ts_rank(\n            to_tsvector('english', \n              COALESCE(name, '') || ' ' || \n              COALESCE(brand, '') || ' ' || \n              COALESCE(description, '') || ' ' || \n              COALESCE(ingredients_list, '')\n            ), \n            plainto_tsquery('english', $1)\n          ) DESC,\n          ai_confidence_score DESC,\n          created_at DESC\n      "
  | none => "ORDER BY created_at DESC"

/-- The `limit` local of `search` (line 168): `pagination.limit || 20`. -/
def searchLimit (pagination : PaginationOptions) : Int :=
  if truthy pagination.limit then pagination.limit.getD 0 else 20

/-- The `offset` local of `search` (line 169):
`pagination.offset || (pagination.page ? (pagination.page - 1) * limit : 0)`. -/
def searchOffset (pagination : PaginationOptions) : Int :=
  if truthy pagination.offset then pagination.offset.getD 0
  else if truthy pagination.page then (pagination.page.getD 0 - 1) * searchLimit pagination
  else 0

/-- The `mainQuery` text of `search` (lines 190-195) together with the
bound-parameter list `[...params, limit, offset]` it is executed with
(line 204). `LIMIT ${paramIndex} OFFSET ${paramIndex + 1}` again interpolates
the bare indexes into the text. -/
def searchMainQuery (f : SearchFilters) (pagination : PaginationOptions) :
    String × List SearchParam :=
  let st := searchConditions f
  ("\n      SELECT * FROM products\n      " ++ searchWhereClause f ++ "\n      " ++
      searchOrderClause f ++ "\n      LIMIT " ++ toString st.2.2 ++ " OFFSET " ++
      toString (st.2.2 + 1) ++ "\n    ",
    st.2.1 ++ [SearchParam.i (searchLimit pagination), SearchParam.i (searchOffset pagination)])

/-- Modelled from the spec: word extraction of the relational store's
`pg_trgm` extension, an external collaborator (spec section 6) — maximal runs
of alphanumeric characters. -/
def trgmWordsAux : List Char → List Char → List (List Char)
  | [], acc => if acc.isEmpty then [] else [acc.reverse]
  | c :: cs, acc =>
    if c.isAlphanum then trgmWordsAux cs (c :: acc)
    else if acc.isEmpty then trgmWordsAux cs []
    else acc.reverse :: trgmWordsAux cs []

/-- All contiguous windows of three characters. -/
def windows3 : List Char → List (List Char)
  | a :: b :: c :: rest => [a, b, c] :: windows3 (b :: c :: rest)
  | _ => []

/-- Modelled from the spec: the trigram set of a string under `pg_trgm` —
lowercase, split into alphanumeric words, pad each with two leading and one
trailing space, collect the distinct three-character windows. -/
def trigrams (s : String) : List (List Char) :=
  (((trgmWordsAux (s.toList.map Char.toLower) []).map
      (fun w => windows3 ([' ', ' '] ++ w ++ [' ']))).flatten).dedup

/-- Modelled from the spec: the store's trigram `similarity(a, b)` —
shared-trigram count over union count (0 when both trigram sets are empty). -/
def similarity (a b : String) : ℚ :=
  let ta := trigrams a
  let tb := trigrams b
  let inter := (ta.filter (fun t => decide (t ∈ tb))).length
  let union := ta.length + tb.length - inter
  if union = 0 then 0 else (inter : ℚ) / (union : ℚ)

/-- The catalog `verification_status` enum of `Product`. -/
inductive VerificationStatus where
  | pending | verified | rejected | flagged
  deriving Repr, DecidableEq

/-- A catalog product row, restricted to the fields the verified operations
read (`ProductRepository.ts` declares ~35 further optional descriptive
fields that no claim touches). -/
structure Product where
  id : String
  name : String
  brand : String
  verification_status : VerificationStatus
  deriving Repr, DecidableEq

/-- The `sim_score` column of `findSimilarProducts`:
`similarity(name, $1) + similarity(brand, $2)`. -/
def simScore (p : Product) (name brand : String) : ℚ :=
  similarity p.name name + similarity p.brand brand

/-- Row comparison of `ORDER BY sim_score DESC`. -/
def bySimScoreDesc (a b : Product × ℚ) : Bool :=
  decide (b.2 ≤ a.2)

/-- The default `threshold` argument of `findSimilarProducts` (line 300). -/
def defaultSimThreshold : ℚ := 7 / 10

/-- `ProductRepository.findSimilarProducts(name, brand, threshold)`
(lines 300-319) over an explicit catalog: keep the rows with
`similarity(name, $1) + similarity(brand, $2) > $3` and
`verification_status = 'verified'`, order by `sim_score` descending,
`LIMIT 10`. -/
def findSimilarProducts (catalog : List Product) (name brand : String)
    (threshold : ℚ) : List (Product × ℚ) :=
  ((((catalog.filter (fun p =>
        decide (simScore p name brand > threshold) &&
        (p.verification_status == VerificationStatus.verified))).map
      (fun p => (p, simScore p name brand))).mergeSort bySimScoreDesc).take 10)

/-- The error taxonomy of `backend/src/database/errors.ts`: one constructor
per error class, carrying the class's constructor arguments. -/
inductive RepoError where
  | databaseError (message : String) (code : Option String)
  | validationError (message : String)
  | notFoundError (resource : String) (id : Option String)
  | duplicateError (resource : String) (field : Option String)
  deriving Repr, DecidableEq

/-- An error raised by the underlying store (`pg`), carrying a provider
error code. -/
structure PgError where
  code : Option String
  deriving Repr, DecidableEq

/-- Decides whether a repository outcome is a `DuplicateError`. -/
def isDuplicateError {α : Type} : Except RepoError α → Bool
  | .error (.duplicateError _ _) => true
  | _ => false

/-- `BaseRepository.create(data)` (lines 150-176), abstracted over the
store's response to the generated `INSERT ... RETURNING *` (the returned
rows, or a provider error). A unique violation (code `23505`) is rethrown as
`DatabaseError('Duplicate entry in <table>', '23505')`; an empty RETURNING
set raises the `NO_ROWS_RETURNED` failure, rewrapped by the catch block; any
other provider error is wrapped as `DatabaseError('Failed to create
<table>')`. -/
def create {α : Type} (tableName : String) (storeResult : Except PgError (List α)) :
    Except RepoError α :=
  match storeResult with
  | .ok rows =>
    match rows.head? with
    | some r => .ok r
    | none => .error (.databaseError ("Failed to create " ++ tableName) (some "NO_ROWS_RETURNED"))
  | .error e =>
    if e.code == some "23505" then
      .error (.databaseError ("Duplicate entry in " ++ tableName) e.code)
    else
      .error (.databaseError ("Failed to create " ++ tableName) e.code)

/-- `DatabaseConnection.transaction(callback)` (`connection.ts` lines
121-137): BEGIN, run the callback's queries on the checked-out client, and
COMMIT — publishing the callback's final state — on success; on any failure
ROLLBACK, keeping the pre-transaction state, and rethrow. -/
def transaction {σ ε α : Type} (st : σ) (callback : σ → Except ε (α × σ)) :
    σ × Except ε α :=
  match callback st with
  | .ok (a, st₂) => (st₂, .ok a)
  | .error e => (st, .error e)

/-- The per-item loop of `bulkInsert` (lines 241-256), abstracted over the
store's response to each generated INSERT (`insertRow st item` yields the
RETURNING row, when any, and the new store state, or fails): items in
order, pushing each returned row onto `results`. -/
def bulkInsertLoop {σ ε ρ : Type} (insertRow : σ → ρ → Except ε (Option ρ × σ)) :
    List ρ → σ → Except ε (List ρ × σ)
  | [], st => .ok ([], st)
  | item :: rest, st =>
    match insertRow st item with
    | .error e => .error e
    | .ok (row?, st₂) =>
      match bulkInsertLoop insertRow rest st₂ with
      | .error e => .error e
      | .ok (rs, st₃) => .ok ((match row? with | some r => r :: rs | none => rs), st₃)

/-- `BaseRepository.bulkInsert(items)` (lines 231-260): empty input returns
`[]` before any database work; otherwise every insert runs inside one
`transaction`. -/
def bulkInsert {σ ε ρ : Type} (insertRow : σ → ρ → Except ε (Option ρ × σ))
    (st : σ) (items : List ρ) : σ × Except ε (List ρ) :=
  if items.isEmpty then (st, .ok [])
  else transaction st (bulkInsertLoop insertRow items)

/-- A store-level INSERT against a table with a row constraint: append the
row and return it when `valid` holds, fail with a provider check-violation
error otherwise (the "one invalid row among N" scenario of spec section 8). -/
def constraintInsert {ρ : Type} (valid : ρ → Bool) (st : List ρ) (r : ρ) :
    Except PgError (Option ρ × List ρ) :=
  if valid r then .ok (some r, st ++ [r]) else .error ⟨some "23514"⟩

/-- Modelled from the spec: SQL `LIKE` matching of the store, an external
collaborator — pattern `p` against text `t`, `%` matching any character
sequence (tried as every suffix of the text) and `_` any single character. -/
def likeMatches : List Char → List Char → Bool
  | [], t => t.isEmpty
  | '%' :: ps, t => t.tails.any (fun t₂ => likeMatches ps t₂)
  | '_' :: ps, t =>
    match t with
    | [] => false
    | _ :: t₂ => likeMatches ps t₂
  | p₁ :: ps, t =>
    match t with
    | [] => false
    | c :: t₂ => p₁ == c && likeMatches ps t₂

/-- Lowercasing used by `ILIKE`. -/
def lowerChars (s : String) : List Char :=
  s.toList.map Char.toLower

/-- Modelled from the spec: `text ILIKE pattern` — case-insensitive `LIKE`. -/
def ilike (text pattern : String) : Bool :=
  likeMatches (lowerChars pattern) (lowerChars text)

/-- A stored `npd_submissions` row, restricted to the columns the duplicate
query reads. -/
structure NpdSubmissionRow where
  user_id : String
  submitted_product_name : String
  submitted_brand : String
  created_at : Int
  deriving Repr, DecidableEq

/-- The `duplicateCheck` query of the submission route (part_006 lines
45-53): a prior submission by the same user whose stored name and brand each
`ILIKE`-match the new values, created within the last 24 hours (times in
seconds). -/
def duplicateCheck (db : List NpdSubmissionRow) (now : Int)
    (uid name brand : String) : Bool :=
  db.any (fun r =>
    (r.user_id == uid) && ilike r.submitted_product_name name &&
    ilike r.submitted_brand brand && decide (now - 86400 < r.created_at))

/-- The `POST /` submission route (part_006 lines 9-107) as a transition on
the stored `npd_submissions` rows, paired with the HTTP status: 400 on
failed validation (name or brand shorter than 2 characters), 409 with no
insert when `duplicateCheck` finds a row, otherwise insert and 201. -/
def createSubmissionRoute (db : List NpdSubmissionRow) (now : Int)
    (uid name brand : String) : List NpdSubmissionRow × Nat :=
  if name.length < 2 || brand.length < 2 then (db, 400)
  else if duplicateCheck db now uid name brand then (db, 409)
  else (db ++ [⟨uid, name, brand, now⟩], 201)

/-- The reward-relevant fields of an `NPDSubmission` as `calculateReward`
reads them. -/
structure NPDSubmission where
  aiConfidence : ℚ
  isRegionalExclusive : Bool

/-- The `tierMultipliers` lookup of `calculateReward` (part_001):
`{ bronze: 1.0, silver: 1.1, gold: 1.2, platinum: 1.3 }[userTier]`. -/
def tierMultipliers (userTier : String) : Option ℚ :=
  [("bronze", (1 : ℚ)), ("silver", 11 / 10), ("gold", 6 / 5),
    ("platinum", 13 / 10)].lookup userTier

/-- `calculateReward(submission, userTier)` (part_001 lines 402-418): start
from base 300, add `Math.floor(aiConfidence * 50)`, add 50 when regional
exclusive, multiply by `tierMultipliers[userTier] || 1.0`, `Math.floor` the
result. The running value is integral until the multiplication. -/
def calculateReward (submission : NPDSubmission) (userTier : String) : Int :=
  let reward : Int :=
    300 + ⌊submission.aiConfidence * 50⌋ +
      (if submission.isRegionalExclusive then 50 else 0)
  ⌊(reward : ℚ) * ((tierMultipliers userTier).getD 1)⌋

/-- The `user_tier` enum. -/
inductive UserTier where
  | bronze | silver | gold | platinum | diamond
  deriving Repr, DecidableEq

/-- A `user_tier_configs` row (database_infrastructure.sql lines 315-323),
restricted to the columns `update_user_tier` reads. -/
structure TierConfig where
  tier : UserTier
  min_submissions : Int
  min_quality_score : ℚ
  min_approval_rate : ℚ
  deriving Repr, DecidableEq

/-- The statistics `update_user_tier` selects for a user. -/
structure UserTierStats where
  total_submissions : Int
  quality_score : ℚ
  approval_rate : ℚ
  deriving Repr, DecidableEq

/-- The WHERE clause of the tier-selection query of `update_user_tier`
(database_infrastructure.sql lines 482-521): all three minimums met. -/
def meetsConfig (stats : UserTierStats) (c : TierConfig) : Bool :=
  decide (c.min_submissions ≤ stats.total_submissions ∧
    c.min_quality_score ≤ stats.quality_score ∧
    c.min_approval_rate ≤ stats.approval_rate)

/-- The `ORDER BY min_submissions DESC, min_quality_score DESC` row
comparison of that query. -/
def byThresholdDesc (a b : TierConfig) : Bool :=
  decide (b.min_submissions < a.min_submissions) ||
    ((a.min_submissions == b.min_submissions) &&
      decide (b.min_quality_score ≤ a.min_quality_score))

/-- The SQL function `update_user_tier`'s tier selection: the first
configuration, in threshold-descending order, whose three minimums the
user's statistics meet (`LIMIT 1`); bronze (`COALESCE`) when none matches. -/
def update_user_tier (configs : List TierConfig) (stats : UserTierStats) : UserTier :=
  ((((configs.filter (meetsConfig stats)).mergeSort byThresholdDesc).head?.map
      TierConfig.tier).getD .bronze)

/-- `UserRepository.updateUserTier` (lines 166-191): the hard-coded CASE
over `total_submissions` and `quality_score`. -/
def updateUserTierCase (total_submissions : Int) (quality_score : ℚ) : UserTier :=
  if 100 ≤ total_submissions ∧ 9 ≤ quality_score then .diamond
  else if 50 ≤ total_submissions ∧ 17 / 2 ≤ quality_score then .platinum
  else if 25 ≤ total_submissions ∧ 8 ≤ quality_score then .gold
  else if 10 ≤ total_submissions ∧ 7 ≤ quality_score then .silver
  else .bronze

/-- The thresholds of `updateUserTierCase` as a configuration table: the
CASE consults no approval rate, so every `min_approval_rate` is 0. -/
def tsTierConfigs : List TierConfig :=
  [⟨.diamond, 100, 9, 0⟩, ⟨.platinum, 50, 17 / 2, 0⟩,
    ⟨.gold, 25, 8, 0⟩, ⟨.silver, 10, 7, 0⟩]

/-! Theorems. -/

/-- The integer prefix of `calculateReward` is already the floor the spec's
formula takes before the multiplier. -/
lemma floor_reward_inner (conf : ℚ) (regional : Bool) :
    (⌊(300 : ℚ) + ((⌊conf * 50⌋ : Int) : ℚ) + (if regional then (50 : ℚ) else 0)⌋ : Int) =
      300 + ⌊conf * 50⌋ + (if regional then 50 else 0) := by
  cases regional
  · simp only [Bool.false_eq_true, if_false]
    rw [show (300 : ℚ) + ((⌊conf * 50⌋ : Int) : ℚ) + 0 =
        ((300 + ⌊conf * 50⌋ + 0 : Int) : ℚ) by push_cast; ring]
    rw [Int.floor_intCast]
  · simp only [if_true]
    rw [show (300 : ℚ) + ((⌊conf * 50⌋ : Int) : ℚ) + 50 =
        ((300 + ⌊conf * 50⌋ + 50 : Int) : ℚ) by push_cast; ring]
    rw [Int.floor_intCast]

/-- C2: for every confidence score, regional-exclusivity flag and tier name,
`calculateReward` equals
`floor(floor(base + qualityBonus + regionalBonus) * tierMultiplier[tier])`
with the code's base 300, `qualityBonus = floor(confidence * 50)` and
`regionalBonus = 50` iff regional-exclusive (`|| 1.0` standing in for a
missing multiplier); in particular at confidence 0.8, regional = true and
the gold multiplier 1.2 the reward is 468. -/
theorem c2_reward_formula :
    (∀ (conf : ℚ) (regional : Bool) (tier : String),
      calculateReward ⟨conf, regional⟩ tier =
        ⌊((⌊(300 : ℚ) + ((⌊conf * 50⌋ : Int) : ℚ) +
            (if regional then (50 : ℚ) else 0)⌋ : Int) : ℚ) *
          ((tierMultipliers tier).getD 1)⌋) ∧
    tierMultipliers "gold" = some (6 / 5) ∧
    calculateReward ⟨4 / 5, true⟩ "gold" = 468 := by
  refine ⟨fun conf regional tier => ?_, rfl, ?_⟩
  · unfold calculateReward
    rw [floor_reward_inner conf regional]
  · simp only [calculateReward]
    rw [show (tierMultipliers "gold") = some (6 / 5) from rfl]
    norm_num

/-- C1: at the search input with the single filter `category = ["Snacks"]`
and default pagination, `ProductRepository.search` builds a query text that
interpolates the parameter INDEX as a bare integer (`category IN (1)`,
`LIMIT 2 OFFSET 3`) — no `$` appears anywhere in the text, so none of the
three bound values (the category, the limit 20, the offset 0) is referenced
through a `$n` placeholder; `BaseRepository.buildWhereClause` on the same
filter writes the required `$1`. -/
theorem c1_search_text_lacks_placeholders :
    searchMainQuery { category := ["Snacks"] } {} =
      ("\n      SELECT * FROM products\n      WHERE category IN (1)\n      ORDER BY created_at DESC\n      LIMIT 2 OFFSET 3\n    ",
        [SearchParam.s "Snacks", SearchParam.i 20, SearchParam.i 0]) ∧
    ((searchMainQuery { category := ["Snacks"] } {}).1.toList.contains '$') = false ∧
    buildWhereClause [("category", FilterVal.arr [Scalar.s "Snacks"])] =
      ("WHERE category IN ($1)", [Scalar.s "Snacks"]) := by
  exact ⟨rfl, by decide, rfl⟩

/-- C9, counterexample: a store failure with the unique-violation code
`23505` surfaces from `create` as the `DatabaseError` class (message
`Duplicate entry in products`), not as the taxonomy's `DuplicateError`
class the claim names. -/
theorem c9_unique_violation_counterexample :
    create "products" (Except.error ⟨some "23505"⟩ : Except PgError (List Unit)) =
      Except.error (RepoError.databaseError "Duplicate entry in products" (some "23505")) ∧
    isDuplicateError
      (create "products" (Except.error ⟨some "23505"⟩ : Except PgError (List Unit))) = false :=
  ⟨rfl, rfl⟩

/-- C9 amended: a uniqueness-constraint violation (provider code `23505`)
surfaces from `create` as a `DatabaseError` whose message starts `Duplicate
entry in` and which carries code `23505` — distinguishable by message and
code, though not by class, from the `Failed to create` wrapping of every
other storage failure; on success `create` returns the first created row. -/
theorem c9_create_error_surface {α : Type} (tableName : String) (row : α)
    (rest : List α) (e : PgError) (he : e.code ≠ some "23505") :
    create tableName (Except.error ⟨some "23505"⟩ : Except PgError (List α)) =
      Except.error (RepoError.databaseError ("Duplicate entry in " ++ tableName) (some "23505")) ∧
    create tableName (Except.ok (row :: rest)) = Except.ok row ∧
    create tableName (Except.error e) =
      (Except.error (RepoError.databaseError ("Failed to create " ++ tableName) e.code) :
        Except RepoError α) ∧
    ("Duplicate entry in " ++ tableName) ≠ ("Failed to create " ++ tableName) := by
  refine ⟨rfl, rfl, ?_, ?_⟩
  · have hbeq : (e.code == some "23505") = false := beq_eq_false_iff_ne.mpr he
    simp [create, hbeq]
  · intro h
    have hlen := congrArg String.length h
    rw [String.length_append, String.length_append] at hlen
    rw [show ("Duplicate entry in " : String).length = 19 from rfl,
      show ("Failed to create " : String).length = 17 from rfl] at hlen
    omega

/-- C9, witness: the amended theorem applied at the `products` table, a
concrete row and the foreign-key violation code `23503`. -/
theorem c9_create_error_surface_witness :
    create "products" (Except.error ⟨some "23505"⟩ : Except PgError (List Unit)) =
      Except.error (RepoError.databaseError ("Duplicate entry in " ++ "products") (some "23505")) ∧
    create "products" (Except.ok (() :: [])) = Except.ok () ∧
    create "products" (Except.error ⟨some "23503"⟩) =
      (Except.error (RepoError.databaseError ("Failed to create " ++ "products") (some "23503")) :
        Except RepoError Unit) ∧
    ("Duplicate entry in " ++ "products") ≠ ("Failed to create " ++ "products") :=
  c9_create_error_surface "products" () [] ⟨some "23503"⟩ (by decide)

/-- Every string `LIKE`-matches itself. -/
lemma likeMatches_self (l : List Char) : likeMatches l l = true := by
  induction l with
  | nil => rfl
  | cons c cs ih =>
    rcases eq_or_ne c '%' with rfl | hpc
    · rw [likeMatches]
      rw [List.any_eq_true]
      exact ⟨cs, (List.mem_tails _ _).mpr (List.suffix_cons '%' cs), ih⟩
    · rcases eq_or_ne c '_' with rfl | huc
      · rw [likeMatches]
        exact ih
      · simp [likeMatches, hpc, huc, ih]

/-- Case-insensitive equality implies an `ILIKE` match (`%` and `_` in the
pattern only widen what matches). -/
lemma ilike_of_lower_eq {text pattern : String}
    (h : lowerChars text = lowerChars pattern) : ilike text pattern = true := by
  unfold ilike
  rw [h]
  exact likeMatches_self _

/-- C4: a submission whose (name, brand) pair exactly matches, case
insensitively, a prior submission of the same user created within the
preceding 24 hours is answered 409 and inserts nothing — the route checks
this before any similarity policy, so the outcome is independent of any
fuzzy trigram score. -/
theorem c4_exact_duplicate_rejected
    (db : List NpdSubmissionRow) (now : Int) (uid name brand : String)
    (r : NpdSubmissionRow) (hr : r ∈ db) (huid : r.user_id = uid)
    (hname : lowerChars r.submitted_product_name = lowerChars name)
    (hbrand : lowerChars r.submitted_brand = lowerChars brand)
    (hfresh : now - 86400 < r.created_at)
    (hnv : 2 ≤ name.length) (hbv : 2 ≤ brand.length) :
    createSubmissionRoute db now uid name brand = (db, 409) := by
  have hdup : duplicateCheck db now uid name brand = true := by
    rw [duplicateCheck, List.any_eq_true]
    refine ⟨r, hr, ?_⟩
    simp [huid, ilike_of_lower_eq hname, ilike_of_lower_eq hbrand, hfresh]
  simp [createSubmissionRoute, hdup,
    show ¬(name.length < 2) by omega, show ¬(brand.length < 2) by omega]

/-- C4, witness: a same-user resubmission of `("Choco Munch", "ABC")` in a
different letter case, 1000 seconds after the original, is rejected with
409 and the stored rows are unchanged. -/
theorem c4_exact_duplicate_rejected_witness :
    createSubmissionRoute [⟨"u1", "Choco Munch", "ABC", 1000⟩] 2000 "u1" "CHOCO MUNCH" "abc" =
      ([⟨"u1", "Choco Munch", "ABC", 1000⟩], 409) :=
  c4_exact_duplicate_rejected _ _ _ _ _ ⟨"u1", "Choco Munch", "ABC", 1000⟩
    (by simp) rfl (by decide) (by decide) (by decide) (by decide) (by decide)

/-- When some item of the batch violates its constraint, the `bulkInsert`
loop stops at the first violation with the provider's check-violation
error. -/
lemma bulkInsertLoop_error_of_invalid {ρ : Type} (valid : ρ → Bool) :
    ∀ (items : List ρ) (st : List ρ), (∃ r ∈ items, valid r = false) →
      bulkInsertLoop (constraintInsert valid) items st =
        .error ⟨some "23514"⟩ := by
  intro items
  induction items with
  | nil =>
    rintro st ⟨r, hr, _⟩
    exact absurd hr (List.not_mem_nil r)
  | cons it rest ih =>
    rintro st ⟨r, hr, hv⟩
    rw [bulkInsertLoop]
    cases hit : valid it
    · simp [constraintInsert, hit]
    · have hr₂ : r ∈ rest := by
        rcases List.mem_cons.mp hr with rfl | h
        · rw [hit] at hv; cases hv
        · exact h
      simp [constraintInsert, hit, ih (st ++ [it]) ⟨r, hr₂, hv⟩]

/-- C6: `bulkInsert([])` touches no state and returns the empty result;
whenever `bulkInsert` fails, the transaction's rollback leaves the original
state (zero rows persisted); and with one constraint-violating row anywhere
in the batch the whole call fails back to the original state. -/
theorem c6_bulkInsert_atomic {σ ε ρ : Type}
    (insertRow : σ → ρ → Except ε (Option ρ × σ)) (st : σ) (items : List ρ)
    (e : ε) (valid : ρ → Bool) (store items₂ : List ρ)
    (herr : (bulkInsert insertRow st items).2 = .error e)
    (hinv : ∃ r ∈ items₂, valid r = false) :
    bulkInsert insertRow st ([] : List ρ) = (st, .ok []) ∧
    (bulkInsert insertRow st items).1 = st ∧
    bulkInsert (constraintInsert valid) store items₂ =
      (store, .error ⟨some "23514"⟩) := by
  refine ⟨rfl, ?_, ?_⟩
  · cases items with
    | nil =>
      unfold bulkInsert at herr
      simp at herr
    | cons a rest =>
      unfold bulkInsert at herr ⊢
      simp only [List.isEmpty_cons, Bool.false_eq_true, if_false] at herr ⊢
      unfold transaction at herr ⊢
      cases hl : bulkInsertLoop insertRow (a :: rest) st with
      | error e₂ => rfl
      | ok pr =>
        obtain ⟨a₂, st₂⟩ := pr
        rw [hl] at herr
        simp at herr
  · have hne : items₂.isEmpty = false := by
      cases items₂ with
      | nil =>
        rcases hinv with ⟨r, hr, _⟩
        exact absurd hr (List.not_mem_nil r)
      | cons a b => rfl
    unfold bulkInsert
    rw [hne]
    simp only [Bool.false_eq_true, if_false]
    unfold transaction
    rw [bulkInsertLoop_error_of_invalid valid items₂ store hinv]

/-- C6, witness: the atomicity theorem applied to a two-item batch whose
second row violates the constraint `n < 10` against an empty store. -/
theorem c6_bulkInsert_atomic_witness :
    bulkInsert (constraintInsert (fun n : Nat => decide (n < 10))) ([] : List Nat)
        ([] : List Nat) = ([], .ok []) ∧
    (bulkInsert (constraintInsert (fun n : Nat => decide (n < 10))) ([] : List Nat)
        [1, 50]).1 = [] ∧
    bulkInsert (constraintInsert (fun n : Nat => decide (n < 10))) [] [1, 50] =
      ([], .error ⟨some "23514"⟩) :=
  c6_bulkInsert_atomic (constraintInsert (fun n : Nat => decide (n < 10))) []
    [1, 50] ⟨some "23514"⟩ (fun n : Nat => decide (n < 10)) [] [1, 50]
    rfl ⟨50, by decide, by decide⟩

/-- C7, counterexample: with pagination `{page: 2, limit: 10, offset: 0}`
the explicitly given offset 0 is NOT used — JS truthiness sends the builder
to the derived branch `(page - 1) * limit = 10`, so the returned page is the
second slice, not the slice at the explicit offset 0 the claim requires. -/
theorem c7_explicit_zero_offset_counterexample :
    buildLimitClause ⟨some 2, some 10, some 0⟩ = (" LIMIT $1 OFFSET $2", [10, 10]) ∧
    runPage (List.range 12) ⟨some 2, some 10, some 0⟩ = [10, 11] ∧
    (List.range 12).take 10 ≠ [10, 11] := by
  refine ⟨by decide, by decide, by decide⟩

/-- C7 amended: the clause uses the explicit offset when it is given and
nonzero, and otherwise derives `(page - 1) * limit` from a 1-based page and
a nonzero limit; consequently with page `p` and limit `l ≥ 1` and no
explicit offset the returned items are the contiguous slice of the ordered
result set starting at `(p - 1) * l`, and at most `l` many. -/
theorem c7_pagination_amended {α : Type} (rows : List α) (p l o : Int)
    (hp : 1 ≤ p) (hl : 1 ≤ l) (ho : o ≠ 0) :
    buildLimitClause ⟨some p, some l, none⟩ =
      (" LIMIT $1 OFFSET $2", [l, (p - 1) * l]) ∧
    runPage rows ⟨some p, some l, none⟩ =
      (rows.drop ((p - 1) * l).toNat).take l.toNat ∧
    (runPage rows ⟨some p, some l, none⟩).length ≤ l.toNat ∧
    buildLimitClause ⟨some p, some l, some o⟩ = (" LIMIT $1 OFFSET $2", [l, o]) ∧
    runPage rows ⟨some p, some l, some o⟩ = (rows.drop o.toNat).take l.toNat := by
  have hlt : truthy (some l) = true := by
    simp only [truthy, bne_iff_ne, ne_eq, decide_eq_true_eq]
    omega
  have hpt : truthy (some p) = true := by
    simp only [truthy, bne_iff_ne, ne_eq, decide_eq_true_eq]
    omega
  have hot : truthy (some o) = true := by
    simp only [truthy, bne_iff_ne, ne_eq, decide_eq_true_eq]
    exact ho
  have hnt : truthy (none : Option Int) = false := rfl
  refine ⟨?_, ?_, ?_, ?_, ?_⟩
  · simp only [buildLimitClause, hlt, hpt, hnt, if_true, Bool.false_eq_true, if_false,
      Bool.and_self, Option.getD_some]
    simp only [List.length_singleton]
    rfl
  · simp only [runPage, effLimit, effOffset, hlt, hpt, hnt, if_true, Bool.false_eq_true,
      if_false, Bool.and_self, Option.getD_some]
  · simp only [runPage, effLimit, effOffset, hlt, hpt, hnt, if_true, Bool.false_eq_true,
      if_false, Bool.and_self, Option.getD_some]
    rw [List.length_take]
    exact inf_le_left
  · simp only [buildLimitClause, hlt, hpt, hot, if_true, Bool.and_self, Option.getD_some]
    simp only [List.length_singleton]
    rfl
  · simp only [runPage, effLimit, effOffset, hlt, hpt, hot, if_true, Bool.and_self,
      Option.getD_some]

/-- C7, witness: the amended pagination theorem at page 2, limit 3, a
nonzero explicit offset 5, over a 7-element result set. -/
theorem c7_pagination_amended_witness :
    buildLimitClause ⟨some 2, some 3, none⟩ =
      (" LIMIT $1 OFFSET $2", [3, (2 - 1) * 3]) ∧
    runPage (List.range 7) ⟨some 2, some 3, none⟩ =
      ((List.range 7).drop ((2 - 1) * 3 : Int).toNat).take (3 : Int).toNat ∧
    (runPage (List.range 7) ⟨some 2, some 3, none⟩).length ≤ (3 : Int).toNat ∧
    buildLimitClause ⟨some 2, some 3, some 5⟩ = (" LIMIT $1 OFFSET $2", [3, 5]) ∧
    runPage (List.range 7) ⟨some 2, some 3, some 5⟩ =
      ((List.range 7).drop (5 : Int).toNat).take (3 : Int).toNat :=
  c7_pagination_amended (List.range 7) 2 3 5 (by norm_num) (by norm_num) (by norm_num)

/-- Reduction of `String.intercalate` on a one-element list. -/
lemma intercalate_singleton (sep x : String) : String.intercalate sep [x] = x := rfl

/-- Reduction of `String.intercalate` on a two-element list. -/
lemma intercalate_pair (sep x y : String) :
    String.intercalate sep [x, y] = x ++ sep ++ y := rfl

/-- C8: `buildWhereClause` translates each present filter value by shape —
a list becomes an `IN` clause with exactly one `$`-placeholder per element,
a string holding the `%` wildcard becomes `ILIKE`, any other value an
equality; a `null`/`undefined` value contributes nothing, the empty filter
map yields no WHERE clause, and two conditions are joined with ` AND ` with
the second one's placeholders renumbered past the first one's parameters. -/
theorem c8_where_clause_shapes :
    buildWhereClause [] = ("", []) ∧
    (∀ (k : String), buildWhereClause [(k, FilterVal.null)] = ("", [])) ∧
    (∀ (k : String) (xs : List Scalar),
      buildWhereClause [(k, FilterVal.arr xs)] =
        ("WHERE " ++ k ++ " IN (" ++
            String.intercalate ", "
              ((List.range xs.length).map (fun j => "$" ++ toString (1 + j))) ++ ")",
          xs)) ∧
    (∀ (k v : String), v.toList.contains '%' = true →
      buildWhereClause [(k, FilterVal.scalar (Scalar.s v))] =
        ("WHERE " ++ k ++ " ILIKE $1", [Scalar.s v])) ∧
    (∀ (k v : String), v.toList.contains '%' = false →
      buildWhereClause [(k, FilterVal.scalar (Scalar.s v))] =
        ("WHERE " ++ k ++ " = $1", [Scalar.s v])) ∧
    (∀ (k : String) (n : Int),
      buildWhereClause [(k, FilterVal.scalar (Scalar.i n))] =
        ("WHERE " ++ k ++ " = $1", [Scalar.i n])) ∧
    (∀ (k : String) (b : Bool),
      buildWhereClause [(k, FilterVal.scalar (Scalar.b b))] =
        ("WHERE " ++ k ++ " = $1", [Scalar.b b])) ∧
    (∀ (k₁ : String) (v₁ : FilterVal) (k₂ : String) (v₂ : FilterVal)
        (c₁ c₂ : String) (ps₁ ps₂ : List Scalar),
      condFor k₁ 1 v₁ = some (c₁, ps₁) →
      condFor k₂ (1 + ps₁.length) v₂ = some (c₂, ps₂) →
      buildWhereClause [(k₁, v₁), (k₂, v₂)] =
        ("WHERE " ++ c₁ ++ " AND " ++ c₂, ps₁ ++ ps₂)) := by
  refine ⟨rfl, fun k => rfl, fun k xs => ?_, fun k v h => ?_, fun k v h => ?_,
    fun k n => ?_, fun k b => ?_, fun k₁ v₁ k₂ v₂ c₁ c₂ ps₁ ps₂ h₁ h₂ => ?_⟩
  · simp [buildWhereClause, buildWhereClauseAux, condFor, String.append_assoc,
      intercalate_singleton]
  · simp only [buildWhereClause, buildWhereClauseAux, condFor, h, if_true,
      intercalate_singleton, List.length_cons, List.length_nil, gt_iff_lt,
      Nat.lt_add_one, String.append_assoc]
    rfl
  · simp only [buildWhereClause, buildWhereClauseAux, condFor, h, Bool.false_eq_true,
      if_false, intercalate_singleton, List.length_cons, List.length_nil, gt_iff_lt,
      Nat.lt_add_one, String.append_assoc]
    rfl
  · simp only [buildWhereClause, buildWhereClauseAux, condFor, intercalate_singleton,
      List.length_cons, List.length_nil, gt_iff_lt, Nat.lt_add_one, String.append_assoc]
    rfl
  · simp only [buildWhereClause, buildWhereClauseAux, condFor, intercalate_singleton,
      List.length_cons, List.length_nil, gt_iff_lt, Nat.lt_add_one, String.append_assoc]
    rfl
  · simp [buildWhereClause, buildWhereClauseAux, h₁, h₂, String.append_assoc,
      intercalate_pair]

/-- C8, witness: the shape theorem applied at a `%`-wildcard string filter
and at a two-entry filter map (a two-element list plus a boolean), showing
the `ILIKE` clause, the `AND` join and the `$1, $2, $3` renumbering. -/
theorem c8_where_clause_shapes_witness :
    buildWhereClause [("name", FilterVal.scalar (Scalar.s "%cho%"))] =
      ("WHERE " ++ "name" ++ " ILIKE $1", [Scalar.s "%cho%"]) ∧
    buildWhereClause [("brand", FilterVal.arr [Scalar.s "A", Scalar.s "B"]),
        ("is_npd", FilterVal.scalar (Scalar.b true))] =
      ("WHERE " ++ "brand IN ($1, $2)" ++ " AND " ++ "is_npd = $3",
        [Scalar.s "A", Scalar.s "B"] ++ [Scalar.b true]) := by
  refine ⟨c8_where_clause_shapes.2.2.2.1 "name" "%cho%" (by decide), ?_⟩
  exact c8_where_clause_shapes.2.2.2.2.2.2.2 "brand" (FilterVal.arr [Scalar.s "A", Scalar.s "B"])
    "is_npd" (FilterVal.scalar (Scalar.b true)) "brand IN ($1, $2)" "is_npd = $3"
    [Scalar.s "A", Scalar.s "B"] [Scalar.b true] rfl rfl

/-- The threshold-descending comparison is reflexive. -/
lemma byThresholdDesc_refl (c : TierConfig) : byThresholdDesc c c = true := by
  simp [byThresholdDesc]

/-- The threshold-descending comparison is total. -/
lemma byThresholdDesc_total (a b : TierConfig) :
    (byThresholdDesc a b || byThresholdDesc b a) = true := by
  simp only [byThresholdDesc, Bool.or_eq_true, decide_eq_true_eq, Bool.and_eq_true,
    beq_iff_eq]
  rcases lt_trichotomy a.min_submissions b.min_submissions with h | h | h
  · exact Or.inr (Or.inl h)
  · rcases le_total b.min_quality_score a.min_quality_score with hq | hq
    · exact Or.inl (Or.inr ⟨h, hq⟩)
    · exact Or.inr (Or.inr ⟨h.symm, hq⟩)
  · exact Or.inl (Or.inl h)

/-- The threshold-descending comparison is transitive. -/
lemma byThresholdDesc_trans (a b c : TierConfig)
    (h₁ : byThresholdDesc a b = true) (h₂ : byThresholdDesc b c = true) :
    byThresholdDesc a c = true := by
  simp only [byThresholdDesc, Bool.or_eq_true, decide_eq_true_eq, Bool.and_eq_true,
    beq_iff_eq] at h₁ h₂ ⊢
  rcases h₁ with h₁ | ⟨e₁, q₁⟩ <;> rcases h₂ with h₂ | ⟨e₂, q₂⟩
  · exact Or.inl (h₂.trans h₁)
  · exact Or.inl (e₂ ▸ h₁)
  · exact Or.inl (e₁ ▸ h₂)
  · exact Or.inr ⟨e₁.trans e₂, q₂.trans q₁⟩

/-- Selection behaviour of the SQL `update_user_tier` query: bronze when no
configuration's minimums are met, and otherwise the tier of a met
configuration that dominates every met configuration in the
`(min_submissions, min_quality_score)` descending order. -/
lemma update_user_tier_spec (configs : List TierConfig) (stats : UserTierStats) :
    ((∀ c ∈ configs, meetsConfig stats c = false) →
      update_user_tier configs stats = .bronze) ∧
    (∀ c₀ ∈ configs, meetsConfig stats c₀ = true →
      ∃ c ∈ configs, meetsConfig stats c = true ∧
        update_user_tier configs stats = c.tier ∧
        ∀ c₂ ∈ configs, meetsConfig stats c₂ = true → byThresholdDesc c c₂ = true) := by
  constructor
  · intro hnone
    have hf : configs.filter (meetsConfig stats) = [] := by
      rw [List.filter_eq_nil_iff]
      intro a ha
      rw [hnone a ha]
      simp
    unfold update_user_tier
    rw [hf, List.mergeSort_nil]
    rfl
  · intro c₀ hc₀ hm₀
    have hperm := List.mergeSort_perm (configs.filter (meetsConfig stats)) byThresholdDesc
    have hsorted := List.sorted_mergeSort
      (fun a b c => byThresholdDesc_trans a b c)
      (fun a b => byThresholdDesc_total a b)
      (configs.filter (meetsConfig stats))
    cases hs : (configs.filter (meetsConfig stats)).mergeSort byThresholdDesc with
    | nil =>
      exfalso
      have : c₀ ∈ configs.filter (meetsConfig stats) := List.mem_filter.mpr ⟨hc₀, hm₀⟩
      rw [hs] at hperm
      rw [(List.perm_nil).mp hperm.symm] at this
      exact absurd this (List.not_mem_nil c₀)
    | cons c tail =>
      have hcmem : c ∈ configs.filter (meetsConfig stats) := by
        rw [hs] at hperm
        exact hperm.mem_iff.mp (List.mem_cons_self c tail)
      rcases List.mem_filter.mp hcmem with ⟨hcc, hcm⟩
      refine ⟨c, hcc, hcm, ?_, ?_⟩
      · unfold update_user_tier
        rw [hs]
        rfl
      · intro c₂ hc₂ hm₂
        have hmem₂ : c₂ ∈ c :: tail := by
          rw [hs] at hperm
          exact hperm.symm.mem_iff.mp (List.mem_filter.mpr ⟨hc₂, hm₂⟩)
        rcases List.mem_cons.mp hmem₂ with rfl | htail
        · exact byThresholdDesc_refl _
        · rw [hs] at hsorted
          exact (List.pairwise_cons.mp hsorted).1 c₂ htail

/-- With a nonnegative approval rate, meeting a configuration whose
`min_approval_rate` is 0 is deciding its other two minimums. -/
lemma meetsConfig_zero_approval (t : UserTier) (ms : Int) (mq : ℚ)
    (ts : Int) (q r : ℚ) (hr : 0 ≤ r) :
    meetsConfig ⟨ts, q, r⟩ ⟨t, ms, mq, 0⟩ = decide (ms ≤ ts ∧ mq ≤ q) := by
  simp only [meetsConfig]
  rw [decide_eq_decide]
  constructor
  · rintro ⟨h1, h2, _⟩
    exact ⟨h1, h2⟩
  · rintro ⟨h1, h2⟩
    exact ⟨h1, h2, hr⟩

/-- C3: tier selection returns a met configuration dominating all met
configurations in the threshold-descending order, bronze when none is met;
stats (25 subs, 8.0 quality, 85% approval) against the single gold
configuration (≥25, ≥8.0, ≥80) select gold, while (5, 9.0, 100) fall back
to bronze (submission floor unmet); and the hard-coded CASE of
`UserRepository.updateUserTier` equals the table-driven selection over its
own thresholds (whose approval minimums are all 0). -/
theorem c3_tier_selection :
    (∀ (configs : List TierConfig) (stats : UserTierStats),
      ((∀ c ∈ configs, meetsConfig stats c = false) →
        update_user_tier configs stats = .bronze) ∧
      (∀ c₀ ∈ configs, meetsConfig stats c₀ = true →
        ∃ c ∈ configs, meetsConfig stats c = true ∧
          update_user_tier configs stats = c.tier ∧
          ∀ c₂ ∈ configs, meetsConfig stats c₂ = true →
            byThresholdDesc c c₂ = true)) ∧
    update_user_tier [⟨.gold, 25, 8, 80⟩] ⟨25, 8, 85⟩ = .gold ∧
    update_user_tier [⟨.gold, 25, 8, 80⟩] ⟨5, 9, 100⟩ = .bronze ∧
    (∀ (ts : Int) (q r : ℚ), 0 ≤ r →
      updateUserTierCase ts q = update_user_tier tsTierConfigs ⟨ts, q, r⟩) := by
  refine ⟨update_user_tier_spec, ?_, ?_, ?_⟩
  · have hmeet : meetsConfig ⟨25, 8, 85⟩ ⟨UserTier.gold, 25, 8, 80⟩ = true := by
      simp only [meetsConfig]
      rw [decide_eq_true_iff]
      refine ⟨by norm_num, by norm_num, by norm_num⟩
    unfold update_user_tier
    rw [show List.filter (meetsConfig ⟨25, 8, 85⟩) [⟨UserTier.gold, 25, 8, 80⟩] =
        [⟨UserTier.gold, 25, 8, 80⟩] from by simp [hmeet]]
    rw [List.perm_singleton.mp (List.mergeSort_perm _ byThresholdDesc)]
    rfl
  · have hmeet : meetsConfig ⟨5, 9, 100⟩ ⟨UserTier.gold, 25, 8, 80⟩ = false := by
      simp only [meetsConfig]
      rw [decide_eq_false_iff_not]
      norm_num
    unfold update_user_tier
    rw [show List.filter (meetsConfig ⟨5, 9, 100⟩) [⟨UserTier.gold, 25, 8, 80⟩] =
        [] from by simp [hmeet]]
    rw [List.mergeSort_nil]
    rfl
  · intro ts q r hr
    have hp4 : List.Pairwise (fun a b => byThresholdDesc a b = true)
        ([⟨.diamond, 100, 9, 0⟩, ⟨.platinum, 50, 17 / 2, 0⟩, ⟨.gold, 25, 8, 0⟩,
          ⟨.silver, 10, 7, 0⟩] : List TierConfig) := by
      refine List.Pairwise.cons ?_ (List.Pairwise.cons ?_
        (List.Pairwise.cons ?_ (List.pairwise_singleton _ _))) <;>
        · intro a ha
          fin_cases ha <;> rfl
    have hp3 : List.Pairwise (fun a b => byThresholdDesc a b = true)
        ([⟨.platinum, 50, 17 / 2, 0⟩, ⟨.gold, 25, 8, 0⟩,
          ⟨.silver, 10, 7, 0⟩] : List TierConfig) := (List.pairwise_cons.mp hp4).2
    have hp2 : List.Pairwise (fun a b => byThresholdDesc a b = true)
        ([⟨.gold, 25, 8, 0⟩, ⟨.silver, 10, 7, 0⟩] : List TierConfig) :=
      (List.pairwise_cons.mp hp3).2
    have e1 := meetsConfig_zero_approval .diamond 100 9 ts q r hr
    have e2 := meetsConfig_zero_approval .platinum 50 (17 / 2) ts q r hr
    have e3 := meetsConfig_zero_approval .gold 25 8 ts q r hr
    have e4 := meetsConfig_zero_approval .silver 10 7 ts q r hr
    unfold updateUserTierCase update_user_tier tsTierConfigs
    rw [List.filter_cons, List.filter_cons, List.filter_cons, List.filter_cons,
      List.filter_nil, e1, e2, e3, e4]
    by_cases h1 : (100 : Int) ≤ ts ∧ (9 : ℚ) ≤ q
    · have h2 : (50 : Int) ≤ ts ∧ (17 / 2 : ℚ) ≤ q :=
        ⟨by linarith [h1.1], by linarith [h1.2]⟩
      have h3 : (25 : Int) ≤ ts ∧ (8 : ℚ) ≤ q :=
        ⟨by linarith [h1.1], by linarith [h1.2]⟩
      have h4 : (10 : Int) ≤ ts ∧ (7 : ℚ) ≤ q :=
        ⟨by linarith [h1.1], by linarith [h1.2]⟩
      rw [decide_eq_true h1, decide_eq_true h2, decide_eq_true h3, decide_eq_true h4,
        if_pos h1]
      simp only [eq_self_iff_true, if_true]
      rw [List.mergeSort_of_sorted hp4]
      rfl
    · by_cases h2 : (50 : Int) ≤ ts ∧ (17 / 2 : ℚ) ≤ q
      · have h3 : (25 : Int) ≤ ts ∧ (8 : ℚ) ≤ q :=
          ⟨by linarith [h2.1], by linarith [h2.2]⟩
        have h4 : (10 : Int) ≤ ts ∧ (7 : ℚ) ≤ q :=
          ⟨by linarith [h2.1], by linarith [h2.2]⟩
        rw [decide_eq_false h1, decide_eq_true h2, decide_eq_true h3,
          decide_eq_true h4, if_neg h1, if_pos h2]
        simp only [eq_self_iff_true, if_true, Bool.false_eq_true, if_false]
        rw [List.mergeSort_of_sorted hp3]
        rfl
      · by_cases h3 : (25 : Int) ≤ ts ∧ (8 : ℚ) ≤ q
        · have h4 : (10 : Int) ≤ ts ∧ (7 : ℚ) ≤ q :=
            ⟨by linarith [h3.1], by linarith [h3.2]⟩
          rw [decide_eq_false h1, decide_eq_false h2, decide_eq_true h3,
            decide_eq_true h4, if_neg h1, if_neg h2, if_pos h3]
          simp only [eq_self_iff_true, if_true, Bool.false_eq_true, if_false]
          rw [List.mergeSort_of_sorted hp2]
          rfl
        · by_cases h4 : (10 : Int) ≤ ts ∧ (7 : ℚ) ≤ q
          · rw [decide_eq_false h1, decide_eq_false h2, decide_eq_false h3,
              decide_eq_true h4, if_neg h1, if_neg h2, if_neg h3, if_pos h4]
            simp only [eq_self_iff_true, if_true, Bool.false_eq_true, if_false]
            rw [List.perm_singleton.mp (List.mergeSort_perm _ byThresholdDesc)]
            rfl
          · rw [decide_eq_false h1, decide_eq_false h2, decide_eq_false h3,
              decide_eq_false h4, if_neg h1, if_neg h2, if_neg h3, if_neg h4]
            simp only [Bool.false_eq_true, if_false]
            rw [List.mergeSort_nil]
            rfl

/-- C3, witness: the selection theorem applied at the spec's concrete
inputs — all-thresholds-unmet statistics give bronze, and the CASE
equivalence at statistics (25, 8.0, 85). -/
theorem c3_tier_selection_witness :
    update_user_tier [⟨.gold, 25, 8, 80⟩] ⟨5, 9, 100⟩ = .bronze ∧
    updateUserTierCase 25 8 = update_user_tier tsTierConfigs ⟨25, 8, 85⟩ := by
  refine ⟨?_, c3_tier_selection.2.2.2 25 8 85 (by norm_num)⟩
  refine (c3_tier_selection.1 [⟨.gold, 25, 8, 80⟩] ⟨5, 9, 100⟩).1 ?_
  intro c hc
  fin_cases hc
  simp only [meetsConfig]
  rw [decide_eq_false_iff_not]
  norm_num

/-- The `sim_score` ordering is total. -/
lemma bySimScoreDesc_total (a b : Product × ℚ) :
    (bySimScoreDesc a b || bySimScoreDesc b a) = true := by
  simp only [bySimScoreDesc, Bool.or_eq_true, decide_eq_true_eq]
  exact le_total b.2 a.2

/-- The `sim_score` ordering is transitive. -/
lemma bySimScoreDesc_trans (a b c : Product × ℚ)
    (h₁ : bySimScoreDesc a b = true) (h₂ : bySimScoreDesc b c = true) :
    bySimScoreDesc a c = true := by
  simp only [bySimScoreDesc, decide_eq_true_eq] at h₁ h₂ ⊢
  exact h₂.trans h₁

/-- Every row returned by `findSimilarProducts` comes from the catalog, is
verified, carries its own `sim_score`, and exceeds the threshold. -/
lemma mem_findSimilarProducts {catalog : List Product} {name brand : String}
    {t : ℚ} {pr : Product × ℚ} (h : pr ∈ findSimilarProducts catalog name brand t) :
    pr.1 ∈ catalog ∧ pr.1.verification_status = .verified ∧
      pr.2 = simScore pr.1 name brand ∧ t < pr.2 := by
  unfold findSimilarProducts at h
  have h₂ := List.mem_of_mem_take h
  have h₃ := (List.mergeSort_perm _ bySimScoreDesc).mem_iff.mp h₂
  rcases List.mem_map.mp h₃ with ⟨p, hpf, rfl⟩
  rcases List.mem_filter.mp hpf with ⟨hpc, hcond⟩
  simp only [Bool.and_eq_true] at hcond
  rcases hcond with ⟨hgt, hver⟩
  exact ⟨hpc, eq_of_beq hver, rfl, of_decide_eq_true hgt⟩

/-- Trigram similarity of a string with itself is 1 whenever the string has
a trigram at all. -/
lemma similarity_self (s : String) (h : trigrams s ≠ []) : similarity s s = 1 := by
  simp only [similarity]
  rw [List.filter_eq_self.mpr (fun a ha => decide_eq_true ha)]
  have hn : (trigrams s).length + (trigrams s).length - (trigrams s).length =
      (trigrams s).length := by omega
  rw [hn]
  have hz : (trigrams s).length ≠ 0 := fun hc => h (List.length_eq_zero.mp hc)
  rw [if_neg hz]
  exact div_self (by exact_mod_cast hz)

/-- The candidate pair of spec section 8 scores 2.0 against an identically
named catalog row, whatever that row's verification status. -/
lemma simScore_choco (v : VerificationStatus) :
    simScore ⟨"1", "Choco Munch", "ABC", v⟩ "Choco Munch" "ABC" = 2 := by
  have hts : trigrams "Choco Munch" ≠ [] := by decide
  have htb : trigrams "ABC" ≠ [] := by decide
  simp only [simScore]
  rw [similarity_self _ hts, similarity_self _ htb]
  norm_num

/-- Evaluation of the duplicate detector on the one-row verified catalog of
spec section 8. -/
lemma findSimilar_choco_verified :
    findSimilarProducts [⟨"1", "Choco Munch", "ABC", .verified⟩] "Choco Munch" "ABC"
      defaultSimThreshold = [(⟨"1", "Choco Munch", "ABC", .verified⟩, 2)] := by
  have hsim := simScore_choco .verified
  have hgt : decide (simScore ⟨"1", "Choco Munch", "ABC", .verified⟩
      "Choco Munch" "ABC" > defaultSimThreshold) = true := by
    rw [hsim, decide_eq_true_iff]
    norm_num [defaultSimThreshold]
  simp only [findSimilarProducts, List.filter_cons, List.filter_nil, hgt,
    beq_self_eq_true, Bool.and_self, Bool.and_true, Bool.true_and,
    eq_self_iff_true, if_true, List.map_cons, List.map_nil]
  rw [hsim]
  rw [List.perm_singleton.mp (List.mergeSort_perm _ bySimScoreDesc)]
  rfl

/-- C5, counterexample: against a catalog holding exactly the pending row
`("Choco Munch", "ABC")`, the candidate `("Choco Munch", "ABC")` scores 2.0,
above the default threshold 0.7, yet the detector returns nothing — the
query also demands `verification_status = 'verified'`, so it does not return
"exactly the catalog rows whose score exceeds the threshold". -/
theorem c5_unverified_row_counterexample :
    findSimilarProducts [⟨"1", "Choco Munch", "ABC", .pending⟩] "Choco Munch" "ABC"
      defaultSimThreshold = [] ∧
    simScore ⟨"1", "Choco Munch", "ABC", .pending⟩ "Choco Munch" "ABC" = 2 ∧
    defaultSimThreshold < 2 := by
  refine ⟨?_, simScore_choco .pending, by norm_num [defaultSimThreshold]⟩
  simp only [findSimilarProducts, List.filter_cons, List.filter_nil]
  rw [show (VerificationStatus.pending == VerificationStatus.verified) = false from rfl]
  simp only [Bool.and_false, Bool.false_eq_true, if_false, List.map_nil,
    List.mergeSort_nil, List.take_nil]

/-- C5 amended: the detector returns exactly the VERIFIED catalog rows whose
score `sim(name, catalogName) + sim(brand, catalogBrand)` exceeds the
threshold (complete whenever at most 10 rows qualify), ordered by that score
descending and capped at 10 rows; the section-8 example row, once verified,
is returned first with score 2.0. -/
theorem c5_similar_products_amended (catalog : List Product)
    (name brand : String) (t : ℚ) :
    (∀ pr ∈ findSimilarProducts catalog name brand t,
      pr.1 ∈ catalog ∧ pr.1.verification_status = .verified ∧
        pr.2 = simScore pr.1 name brand ∧ t < pr.2) ∧
    List.Pairwise (fun a b : Product × ℚ => b.2 ≤ a.2)
      (findSimilarProducts catalog name brand t) ∧
    (findSimilarProducts catalog name brand t).length ≤ 10 ∧
    ((catalog.filter (fun p => decide (simScore p name brand > t) &&
        (p.verification_status == VerificationStatus.verified))).length ≤ 10 →
      ∀ p ∈ catalog, p.verification_status = .verified →
        t < simScore p name brand →
        (p, simScore p name brand) ∈ findSimilarProducts catalog name brand t) ∧
    findSimilarProducts [⟨"1", "Choco Munch", "ABC", .verified⟩] "Choco Munch" "ABC"
      defaultSimThreshold = [(⟨"1", "Choco Munch", "ABC", .verified⟩, 2)] := by
  refine ⟨fun pr h => mem_findSimilarProducts h, ?_, ?_, ?_, findSimilar_choco_verified⟩
  · unfold findSimilarProducts
    refine List.Pairwise.sublist (List.take_sublist _ _) ?_
    refine (List.sorted_mergeSort bySimScoreDesc_trans bySimScoreDesc_total _).imp ?_
    intro a b hab
    exact of_decide_eq_true hab
  · unfold findSimilarProducts
    rw [List.length_take]
    exact inf_le_left
  · intro hlen p hp hv hgt
    unfold findSimilarProducts
    have hperm := List.mergeSort_perm
      ((catalog.filter (fun p => decide (simScore p name brand > t) &&
        (p.verification_status == VerificationStatus.verified))).map
          (fun p => (p, simScore p name brand))) bySimScoreDesc
    have hlen₂ : (((catalog.filter (fun p => decide (simScore p name brand > t) &&
        (p.verification_status == VerificationStatus.verified))).map
          (fun p => (p, simScore p name brand))).mergeSort bySimScoreDesc).length ≤ 10 := by
      rw [hperm.length_eq, List.length_map]
      exact hlen
    rw [List.take_of_length_le hlen₂]
    refine hperm.mem_iff.mpr ?_
    refine List.mem_map.mpr ⟨p, ?_, rfl⟩
    refine List.mem_filter.mpr ⟨hp, ?_⟩
    rw [Bool.and_eq_true]
    refine ⟨decide_eq_true hgt, ?_⟩
    rw [hv]
    rfl

/-- C5, witness: the amended theorem's soundness conjunct applied to the
concrete one-row verified catalog and its returned row. -/
theorem c5_similar_products_amended_witness :
    ((⟨"1", "Choco Munch", "ABC", .verified⟩ : Product), (2 : ℚ)).1 ∈
        [(⟨"1", "Choco Munch", "ABC", .verified⟩ : Product)] ∧
      ((⟨"1", "Choco Munch", "ABC", .verified⟩ : Product),
          (2 : ℚ)).1.verification_status = .verified ∧
      ((⟨"1", "Choco Munch", "ABC", .verified⟩ : Product), (2 : ℚ)).2 =
        simScore ((⟨"1", "Choco Munch", "ABC", .verified⟩ : Product),
          (2 : ℚ)).1 "Choco Munch" "ABC" ∧
      defaultSimThreshold <
        ((⟨"1", "Choco Munch", "ABC", .verified⟩ : Product), (2 : ℚ)).2 := by
  have h := c5_similar_products_amended [⟨"1", "Choco Munch", "ABC", .verified⟩]
    "Choco Munch" "ABC" defaultSimThreshold
  refine h.1 (⟨"1", "Choco Munch", "ABC", .verified⟩, 2) ?_
  rw [h.2.2.2.2]
  exact List.mem_singleton_self _

/-- C10: a catalog row returned by the duplicate detector is always
verified — a pending, rejected or flagged product is never returned as a
possible duplicate, whatever its similarity score. -/
theorem c10_similar_only_verified (catalog : List Product) (name brand : String)
    (t : ℚ) (p : Product) (s : ℚ)
    (h : (p, s) ∈ findSimilarProducts catalog name brand t) :
    p.verification_status = .verified :=
  (mem_findSimilarProducts h).2.1

/-- C10, witness: the theorem applied to the returned row of the concrete
one-row verified catalog. -/
theorem c10_similar_only_verified_witness :
    (⟨"1", "Choco Munch", "ABC", .verified⟩ : Product).verification_status =
      .verified := by
  refine c10_similar_only_verified [⟨"1", "Choco Munch", "ABC", .verified⟩]
    "Choco Munch" "ABC" defaultSimThreshold _ 2 ?_
  rw [findSimilar_choco_verified]
  exact List.mem_singleton_self _

end Filis
